import Mathlib

/-!
Verification of the orchestration scripts `generate_jeff33.py` (script 1) and
`make_test_data.py` (script 2) of the nuclear-data library repository.

The scripts are sequential orchestration: download, archive extraction,
parallel conversion of evaluation files via the external `openmc.data`
library, and manifest (`cross_sections.xml`) assembly.  The definitions below
are a shallow embedding of the parts of the two scripts that the claims are
about; the external library's internals (ENDF parsing, HDF5 serialization) are
out of scope and are represented by abstract payload fields.
-/

/- ===================== Python string primitives ===================== -/

/-- Python `str.replace(old, new, 1)` on lists of characters: replace the
first (leftmost) occurrence of `old` by `new`; if `old` does not occur the
text is returned unchanged.  (`''.replace('', x, 1)` prepends `x`, matching
Python.)  Used by `fix_zaid` in `make_test_data.py` lines 35-41. -/
def replaceFirst (old new : List Char) : List Char → List Char
  | [] => if old.isEmpty then new else []
  | c :: rest =>
    if old.isPrefixOf (c :: rest) then new ++ (c :: rest).drop old.length
    else c :: replaceFirst old new rest

/-- `make_test_data.py` lines 35-41: `fix_zaid(table, old, new)` reads the
file `tsl/<table>`, performs `text.replace(old, new, 1)` and writes the result
back.  Embedded as the transformation applied to the file's content. -/
def fix_zaid (content old new : String) : String :=
  String.mk (replaceFirst old.toList new.toList content.toList)

/-- The two configured ZAID fixups of `make_test_data.py` lines 76-77:
`fix_zaid('bebeo.acer', '8016', '   0')` and
`fix_zaid('obeo.acer', '4009', '   0')`, as (table, old, new) triples. -/
def zaid_fixups : List (String × String × String) :=
  [("bebeo.acer", "8016", "   0"), ("obeo.acer", "4009", "   0")]

/-- Last path component of a POSIX-style path (pathlib's `Path(p).name`):
the characters after the last `'/'`. -/
def last_component (p : String) : String :=
  String.mk ((p.toList.reverse.takeWhile (fun c => c != '/')).reverse)

/-- Index of the last `'.'` in a character list (Python `name.rfind('.')`),
or `none` when there is no dot. -/
def rfind_dot (name : List Char) : Option Nat :=
  match name.reverse.findIdx? (fun c => c = '.') with
  | some j => some (name.length - 1 - j)
  | none => none

/-- pathlib's `Path(p).suffix`: the substring of the final component from its
last dot onwards, or `""` when the last component has no dot, starts with its
only dot, or ends with a dot. -/
def py_suffix (p : String) : String :=
  let name := (last_component p).toList
  match rfind_dot name with
  | some i => if 0 < i ∧ i < name.length - 1 then String.mk (name.drop i) else ""
  | none => ""

/-- Python's `needle in hay` substring test, on character lists. -/
def contains_list (needle : List Char) : List Char → Bool
  | [] => needle.isEmpty
  | c :: rest => needle.isPrefixOf (c :: rest) || contains_list needle rest

/- ===================== script 2: extraction step ===================== -/

/-- The archive-extraction actions performed by `make_test_data.py`
lines 60-70: extract a gzipped tar (into `tsl/` when the archive name
contains `tsl`, else into the current directory) or extract a zip. -/
inductive ExtractCmd where
  | tar_extract_all (dest : Option String)
  | zip_extract_all
deriving DecidableEq, Repr

/-- One iteration of the extraction loop, `make_test_data.py` lines 60-70:
`if path.suffix == '.gz'` extract with `tarfile` (under `tsl` when `'tsl' in f`),
`elif path.suffix == '.zip'` extract with `zipfile`.  The loop body has no
`else` branch and raises nothing itself, so the result is always `Except.ok`;
`Except.ok none` means the file was not extracted at all (silently skipped). -/
def extract_step (f : String) : Except String (Option ExtractCmd) :=
  if py_suffix f = ".gz" then
    Except.ok (some (ExtractCmd.tar_extract_all
      (if contains_list "tsl".toList f.toList then some "tsl" else none)))
  else if py_suffix f = ".zip" then
    Except.ok (some ExtractCmd.zip_extract_all)
  else
    Except.ok none

/- ============ script 2: neutron conversion worker (lines 84-110) ============ -/

/-- Abstract payload standing for a fission-energy-release dataset built by
the external `openmc.data` library (its internals are out of scope). -/
structure FissionEnergyRelease where
  tag : Nat
deriving DecidableEq, Repr

/-- The fields of an ACE cross-section table that the conversion loop of
`make_test_data.py` consults: the nuclide name and the fission-energy-release
data that `IncidentNeutron.from_ace` builds from the table (if any). -/
structure AceTable where
  name : String
  fer_ace : Option FissionEnergyRelease
deriving DecidableEq, Repr

/-- The companion raw ENDF evaluation (`openmc.data.endf.Evaluation`):
its set of (MF, MT) sections, the fission-energy-release data that
`IncidentNeutron.from_endf` would extract, and an abstract payload for the
0 K elastic-scattering data derivable from the evaluation. -/
structure Evaluation where
  sections : List (Nat × Nat)
  fer_endf : Option FissionEnergyRelease
  elastic0K_tag : Nat
deriving DecidableEq, Repr

/-- The in-memory record built and enriched by the conversion loop. -/
structure IncidentNeutron where
  name : String
  fission_energy : Option FissionEnergyRelease
  elastic_0K : Option Nat
deriving DecidableEq, Repr

/-- `openmc.data.IncidentNeutron.from_ace`: builds the record from the ACE
table; no 0 K elastic data is present at this point. -/
def IncidentNeutron.from_ace (t : AceTable) : IncidentNeutron :=
  { name := t.name, fission_energy := t.fer_ace, elastic_0K := none }

/-- `data.add_elastic_0K_from_endf(endf_filename)`: injects 0 K
elastic-scattering data derived from the companion raw evaluation. -/
def add_elastic_0K_from_endf (d : IncidentNeutron) (ev : Evaluation) : IncidentNeutron :=
  { d with elastic_0K := some ev.elastic0K_tag }

/-- The body of the incident-neutron conversion loop, `make_test_data.py`
lines 87-103: build the record from the ACE file; if the companion evaluation
has section (MF=1, MT=458), overwrite `fission_energy` with the value built
from the ENDF evaluation; if the nuclide name is `U235`, `U238` or `Pu239`,
inject 0 K elastic-scattering data from the evaluation. -/
def convert_neutron_ace (t : AceTable) (ev : Evaluation) : IncidentNeutron :=
  let data := IncidentNeutron.from_ace t
  let data := if (1, 458) ∈ ev.sections then { data with fission_energy := ev.fer_endf } else data
  let data := if data.name ∈ ["U235", "U238", "Pu239"] then add_elastic_0K_from_endf data ev else data
  data

/- ============ script 2: incident photon loop (lines 130-142) ============ -/

/-- `'{:03}'.format(z)`: decimal rendering zero-padded to width 3. -/
def pad3 (n : Nat) : String :=
  if n < 10 then "00" ++ toString n
  else if n < 100 then "0" ++ toString n
  else toString n

/-- `photoat/photoat-{:03}_{}_000.endf` for atomic number `z`, symbol `sym`. -/
def photoat_file (z : Nat) (sym : String) : String :=
  "photoat/photoat-" ++ pad3 z ++ "_" ++ sym ++ "_000.endf"

/-- `atomic_relax/atom-{:03}_{}_000.endf` for atomic number `z`, symbol `sym`. -/
def atom_file (z : Nat) (sym : String) : String :=
  "atomic_relax/atom-" ++ pad3 z ++ "_" ++ sym ++ "_000.endf"

/-- The output path `nndc_hdf5/photon/<element>.h5`. -/
def photon_output (outdir sym : String) : String :=
  outdir ++ "/photon/" ++ sym ++ ".h5"

/-- One iteration of the photon loop: the atomic number, the raw evaluation
files consumed (`IncidentPhoton.from_endf(photo_file, atom_file)`), and the
output file written and registered. -/
structure PhotonJob where
  z : Nat
  inputs : List String
  output : String
deriving DecidableEq, Repr

/-- The incident-photon phase of `make_test_data.py` lines 130-142:
`for z in range(1, 101)`, consume the photoatomic and atomic-relaxation
evaluations for element `z` and write one output file.  `symbol` abstracts
the external `openmc.data.ATOMIC_SYMBOL` table. -/
def photon_jobs (symbol : Nat → String) (outdir : String) : List PhotonJob :=
  (List.range' 1 100).map fun z =>
    { z := z
      inputs := [photoat_file z (symbol z), atom_file z (symbol z)]
      output := photon_output outdir (symbol z) }

/-- The photon output files registered with the library, in loop order. -/
def photon_registered (symbol : Nat → String) (outdir : String) : List String :=
  (photon_jobs symbol outdir).map PhotonJob.output

/- ===================== manifest (DataLibrary) ===================== -/

/-- Modelled from the spec: `openmc.data.DataLibrary` is implemented in the
external `openmc` package, whose source is not part of this repository.
Per the spec (Library Assembler), `register_file` adds one entry and
`export_to_xml` writes the entries in a stable order sorted by path. -/
structure DataLibrary where
  entries : List String
deriving DecidableEq, Repr

/-- Modelled from the spec: `DataLibrary.register_file(p)` appends one
registration. -/
def DataLibrary.register_file (lib : DataLibrary) (p : String) : DataLibrary :=
  ⟨lib.entries ++ [p]⟩

/-- Modelled from the spec: the sequence of entries `export_to_xml` writes —
the registered paths in a stable order sorted by path. -/
def DataLibrary.export_entries (lib : DataLibrary) : List String :=
  lib.entries.insertionSort (fun a b => a ≤ b)

/-- Register a list of output paths into a fresh `DataLibrary`, in order. -/
def register_all (ps : List String) : DataLibrary :=
  ps.foldl DataLibrary.register_file ⟨[]⟩

/- ============ script 1: events, worker pool, orchestration ============ -/

/-- Observable actions of script 1's pipeline, in program order. -/
inductive Event where
  | downloaded (f : String)
  | extracted (f : String)
  | task_finished (i : Nat)
  | registered (p : String)
  | exported
deriving DecidableEq, Repr

/-- `multiprocessing.pool.AsyncResult.wait()`: blocks until the task has
completed and returns `None`; unlike `get()`, it does not re-raise an
exception raised inside the task, whatever the task's outcome was. -/
def async_result_wait (_r : Except String String) : Unit := ()

/-- The join loop `for r in results: r.wait()` of `generate_jeff33.py`
lines 135-136: one `task_finished` event per submitted task, in submission
order. -/
def join_all (results : List (Except String String)) : List Event :=
  (List.range results.length).map Event.task_finished

/-- The `*.h5` files present in the destination directory after the pool has
finished: the outputs of the tasks that succeeded (a failed `process_neutron`
task writes no output). -/
def produced_outputs (tasks : List (Except String String)) : List String :=
  tasks.filterMap Except.toOption

/-- The conversion-and-export tail of `generate_jeff33.py` lines 127-146:
wait on every submitted task, then register the sorted `*.h5` glob of the
destination directory, then export `cross_sections.xml`. -/
def conversion_phase (tasks : List (Except String String)) : List Event :=
  join_all tasks
    ++ ((produced_outputs tasks).insertionSort (fun a b => a ≤ b)).map Event.registered
    ++ [Event.exported]

/-- Outcome of running the conversion-and-export tail.  Each iteration of the
join loop calls `async_result_wait`, which returns without re-raising, so the
loop cannot fail and the phase always completes with the full trace. -/
def conversion_outcome (tasks : List (Except String String)) : Except String (List Event) :=
  let _joins := tasks.map async_result_wait
  Except.ok (conversion_phase tasks)

/- ============ script 1: argparse namespace and path setup ============ -/

/-- The command-line inputs of `generate_jeff33.py`: one field per `dest`
assigned by the parser (`destination`, `download`, `extract`, `libver`,
`temperatures`; `set_defaults` additionally fixes `tmpdir := True`).
Temperatures are opaque to the claims and carried as integers. -/
structure ArgFlags where
  destination : Option String
  download : Bool
  extract : Bool
  libver : String
  temperatures : List Int
deriving DecidableEq, Repr

/-- A value stored in the parsed-argument namespace. -/
inductive AttrVal where
  | pathv (p : Option String)
  | flag (b : Bool)
  | strv (s : String)
  | nums (ts : List Int)
deriving DecidableEq, Repr

/-- Attribute lookup on the namespace returned by `parser.parse_args()`:
exactly the dests defined by the `add_argument` and `set_defaults` calls of
`generate_jeff33.py` lines 24-46 are present; any other attribute name is
absent (Python raises `AttributeError`). -/
def nsLookup (a : ArgFlags) (name : String) : Option AttrVal :=
  if name = "destination" then some (AttrVal.pathv a.destination)
  else if name = "download" then some (AttrVal.flag a.download)
  else if name = "extract" then some (AttrVal.flag a.extract)
  else if name = "libver" then some (AttrVal.strv a.libver)
  else if name = "temperatures" then some (AttrVal.nums a.temperatures)
  else if name = "tmpdir" then some (AttrVal.flag true)
  else none

/-- The archives of `release_details['33']`, `generate_jeff33.py` lines 63-64. -/
def compressed_files : List String := ["JEFF33-n.tgz", "JEFF33-tsl.tgz"]

/-- The top-to-bottom run of `generate_jeff33.py`: line 54 constructs
`endf_files_dir` from `args.release` — an attribute the parser never defines —
before the download (line 105), extraction (line 113) and conversion
(line 127) phases.  When the attribute is absent the run stops there with an
`AttributeError` and an empty event trace; otherwise the phases follow.
`tasks` stands for the conversion tasks derived from the extracted files. -/
def run_generate_jeff33 (a : ArgFlags) (tasks : List (Except String String)) :
    List Event × Except String Unit :=
  match nsLookup a "release" with
  | none => ([], Except.error "AttributeError: release")
  | some _ =>
    let dl := if a.download then compressed_files.map Event.downloaded else []
    let ex := if a.extract then compressed_files.map Event.extracted else []
    (dl ++ ex ++ conversion_phase tasks, Except.ok ())

/- ============ script 1: thermal-scattering configuration ============ -/

/-- `release_details['33']['neutron']['sab_files']`, `generate_jeff33.py`
lines 71-92: pairs (principal neutron evaluation, thermal-scattering
companion).  Each path is `neutron_dir / name`, embedded as the pair
(directory `nd`, file name). -/
def sab_files (nd : String) : List ((String × String) × (String × String)) :=
  [ ((nd, "1-H-1g.jeff33"), (nd, "tsl-HinCaH2.jeff33")),
    ((nd, "1-H-1g.jeff33"), (nd, "tsl-HinCH2.jeff33")),
    ((nd, "1-H-1g.jeff33"), (nd, "tsl-HinH2O.jeff33")),
    ((nd, "1-H-1g.jeff33"), (nd, "tsl-HinIce.jeff33")),
    ((nd, "1-H-1g.jeff33"), (nd, "tsl-HinMesitylene-PhaseII.jeff33")),
    ((nd, "1-H-1g.jeff33"), (nd, "tsl-HinOrthoH.jeff33")),
    ((nd, "1-H-1g.jeff33"), (nd, "tsl-HinParaH.jeff33")),
    ((nd, "1-H-1g.jeff33"), (nd, "tsl-HinToluene.jeff33")),
    ((nd, "1-H-1g.jeff33"), (nd, "tsl-HinZrH.jeff33")),
    ((nd, "1-H-2g.jeff33"), (nd, "tsl-DinD2O.jeff33")),
    ((nd, "1-H-2g.jeff33"), (nd, "tsl-DinOrthoD.jeff33")),
    ((nd, "1-H-2g.jeff33"), (nd, "tsl-DinParaD.jeff33")),
    ((nd, "4-Be-9g.jeff33"), (nd, "tsl-Be.jeff33")),
    ((nd, "6-C-0g.jeff33"), (nd, "tsl-Graphite.jeff33")),
    ((nd, "8-O-16g.jeff33"), (nd, "tsl-O16inAl2O3.jeff33")),
    ((nd, "8-O-16g.jeff33"), (nd, "tsl-OinD2O.jeff33")),
    ((nd, "12-Mg-24g.jeff33"), (nd, "tsl-Mg.jeff33")),
    ((nd, "13-Al-27g.jeff33"), (nd, "tsl-Al27inAl2O3.jeff33")),
    ((nd, "14-Si-28g.jeff33"), (nd, "tsl-Silicon.jeff33")),
    ((nd, "20-Ca-40g.jeff33"), (nd, "tsl-CainCaH2.jeff33")) ]

/-- The thermal-scattering companions configured for a given principal
neutron evaluation file. -/
def companions (nd principal : String) : List (String × String) :=
  ((sab_files nd).filter (fun pr => pr.1 = (nd, principal))).map Prod.snd

/-- Output file name of a converted evaluation (`<name>.h5`). -/
def hdf5_output (name : String) : String := name ++ ".h5"

/-- Modelled from the spec: the conversion workers `process_neutron` and
`process_thermal` are imported from `utils`, whose source is not included in
the repository snapshot.  Per the spec (Conversion Worker), converting a
principal neutron evaluation produces one neutron output file, and converting
each configured thermal-scattering companion produces one thermal output
file; the pair below is (neutron outputs, thermal outputs). -/
def convert_with_companions (nd principal : String) : List String × List String :=
  ([hdf5_output principal], (companions nd principal).map (fun c => hdf5_output c.2))

/-- Modelled from the spec: the manifest obtained by registering every output
of `convert_with_companions`. -/
def scenario_manifest (nd principal : String) : DataLibrary :=
  register_all
    ((convert_with_companions nd principal).1 ++ (convert_with_companions nd principal).2)

/- ===================== helper lemmas ===================== -/

theorem register_file_entries (acc : List String) (p : String) :
    (DataLibrary.register_file ⟨acc⟩ p).entries = acc ++ [p] := rfl

theorem register_all_entries_aux (ps : List String) :
    ∀ acc : List String, (ps.foldl DataLibrary.register_file ⟨acc⟩).entries = acc ++ ps := by
  induction ps with
  | nil => intro acc; simp
  | cons p rest ih =>
    intro acc
    simp only [List.foldl_cons]
    rw [show DataLibrary.register_file ⟨acc⟩ p = (⟨acc ++ [p]⟩ : DataLibrary) from rfl,
      ih (acc ++ [p])]
    simp

theorem register_all_entries (ps : List String) : (register_all ps).entries = ps := by
  simpa using register_all_entries_aux ps []

theorem replaceFirst_of_not_occurs (old new : List Char) :
    ∀ text : List Char, old ≠ [] → (∀ p s, text ≠ p ++ old ++ s) →
      replaceFirst old new text = text := by
  intro text
  induction text with
  | nil =>
    intro ho _
    simp [replaceFirst, List.isEmpty_iff, ho]
  | cons c rest ih =>
    intro ho hno
    have hpre : ¬ old.isPrefixOf (c :: rest) := by
      intro h
      obtain ⟨t, ht⟩ := List.isPrefixOf_iff_prefix.mp h
      exact hno [] t (by simp [ht.symm])
    have : replaceFirst old new (c :: rest) = c :: replaceFirst old new rest := by
      simp [replaceFirst, hpre]
    rw [this, ih ho]
    intro p s hps
    exact hno (c :: p) s (by simp [hps])

theorem replaceFirst_first_occurrence (old new : List Char) :
    ∀ text : List Char, (∃ p s, text = p ++ old ++ s) →
      ∃ p s, text = p ++ old ++ s ∧
        replaceFirst old new text = p ++ new ++ s ∧
        ∀ q r, text = q ++ old ++ r → p.length ≤ q.length := by
  intro text
  induction text with
  | nil =>
    rintro ⟨p, s, hps⟩
    have h0 : p = [] ∧ (old = [] ∧ s = []) := by
      simpa [List.append_assoc, List.append_eq_nil] using hps.symm
    obtain ⟨hp, ho, hs⟩ := h0
    refine ⟨[], [], by simp [ho], ?_, fun q r _ => by simp⟩
    simp [replaceFirst, ho]
  | cons c rest ih =>
    rintro ⟨p, s, hps⟩
    by_cases hpre : old.isPrefixOf (c :: rest)
    · obtain ⟨t, ht⟩ := List.isPrefixOf_iff_prefix.mp hpre
      refine ⟨[], t, by simp [ht], ?_, fun q r _ => by simp⟩
      have : replaceFirst old new (c :: rest) = new ++ (c :: rest).drop old.length := by
        simp [replaceFirst, hpre]
      rw [this, ← ht, List.drop_left]
      simp
    · have hp_ne : p ≠ [] := by
        intro hp
        subst hp
        exact hpre (List.isPrefixOf_iff_prefix.mpr ⟨s, by simpa using hps.symm⟩)
      obtain ⟨c', p', hp⟩ := List.exists_cons_of_ne_nil hp_ne
      subst hp
      obtain ⟨hcc, hrest0⟩ := List.cons_eq_cons.mp (by simpa using hps)
      have hrest : rest = p' ++ old ++ s := by simpa [List.append_assoc] using hrest0
      obtain ⟨p₀, s₀, h₀, h₁, h₂⟩ := ih ⟨p', s, hrest⟩
      refine ⟨c :: p₀, s₀, by simp [h₀], ?_, ?_⟩
      · have : replaceFirst old new (c :: rest) = c :: replaceFirst old new rest := by
          simp [replaceFirst, hpre]
        rw [this, h₁]
        simp
      · rintro q r hqr
        match q with
        | [] =>
          exact absurd (List.isPrefixOf_iff_prefix.mpr ⟨r, by simpa using hqr.symm⟩) hpre
        | d :: q' =>
          have hq : rest = q' ++ old ++ r := by
            have := (List.cons_eq_cons.mp (by simpa using hqr)).2
            simpa [List.append_assoc] using this
          have := h₂ q' r hq
          simpa using Nat.succ_le_succ this

theorem replaceFirst_length (old new : List Char) (hlen : old.length = new.length) :
    ∀ text : List Char, (replaceFirst old new text).length = text.length := by
  intro text
  induction text with
  | nil =>
    by_cases ho : old.isEmpty
    · have ho' : old = [] := List.isEmpty_iff.mp ho
      have hn : new = [] := by
        rw [ho'] at hlen
        exact List.length_eq_zero.mp hlen.symm
      simp [replaceFirst, ho, hn]
    · simp [replaceFirst, ho]
  | cons c rest ih =>
    by_cases hpre : old.isPrefixOf (c :: rest)
    · have hle : old.length ≤ (c :: rest).length :=
        (List.isPrefixOf_iff_prefix.mp hpre).length_le
      have : replaceFirst old new (c :: rest) = new ++ (c :: rest).drop old.length := by
        simp [replaceFirst, hpre]
      rw [this]
      simp only [List.length_append, List.length_drop]
      omega
    · have : replaceFirst old new (c :: rest) = c :: replaceFirst old new rest := by
        simp [replaceFirst, hpre]
      rw [this]
      simp [ih]

/- ===================== claim theorems ===================== -/

/-- C6: for every target file content and every pair of old/new substrings,
`fix_zaid` (which performs Python `text.replace(old, new, 1)`) rewrites the
content to `p ++ new ++ s` where `text = p ++ old ++ s` is the decomposition
at the *first* occurrence of `old` (no occurrence starts earlier than `p`),
so the prefix before the first occurrence and the entire suffix after it —
including every one of the remaining occurrences — are byte-for-byte
unchanged. -/
theorem fix_zaid_replaces_first_occurrence_only (text old new : String)
    (hocc : ∃ p s, text.toList = p ++ old.toList ++ s) :
    ∃ p s, text.toList = p ++ old.toList ++ s ∧
      (fix_zaid text old new).toList = p ++ new.toList ++ s ∧
      ∀ q r, text.toList = q ++ old.toList ++ r → p.length ≤ q.length := by
  obtain ⟨p, s, h₀, h₁, h₂⟩ := replaceFirst_first_occurrence old.toList new.toList text.toList hocc
  exact ⟨p, s, h₀, by simpa [fix_zaid] using h₁, h₂⟩

/-- C6 witness: `fix_zaid` applied to `"C 8016 AND 8016"` with old `"8016"`
and new `"   0"` rewrites exactly the first `"8016"`. -/
theorem fix_zaid_replaces_first_occurrence_only_witness :
    ∃ p s, ("C 8016 AND 8016").toList = p ++ ("8016").toList ++ s ∧
      (fix_zaid "C 8016 AND 8016" "8016" "   0").toList = p ++ ("   0").toList ++ s ∧
      ∀ q r, ("C 8016 AND 8016").toList = q ++ ("8016").toList ++ r → p.length ≤ q.length :=
  fix_zaid_replaces_first_occurrence_only "C 8016 AND 8016" "8016" "   0"
    ⟨("C ").toList, (" AND 8016").toList, by decide⟩

/-- C10: both configured ZAID fixups replace a 4-character substring by a
4-character substring, and applying either fixup preserves the byte length of
the patched table file content. -/
theorem zaid_fixups_length_preserving :
    ∀ content : String,
      (fix_zaid content "8016" "   0").length = content.length ∧
      (fix_zaid content "4009" "   0").length = content.length ∧
      zaid_fixups.map (fun fx => (fx.2.1.length, fx.2.2.length)) = [(4, 4), (4, 4)] := by
  intro content
  refine ⟨?_, ?_, by decide⟩
  · exact replaceFirst_length ("8016").toList ("   0").toList (by decide) content.toList
  · exact replaceFirst_length ("4009").toList ("   0").toList (by decide) content.toList

/-- C5: the conversion worker injects zero-temperature elastic-scattering
data (derived from the companion raw evaluation) exactly when the nuclide
name is in the fixed allow-list `U235`, `U238`, `Pu239`; for every other
nuclide the record keeps no such dataset. -/
theorem elastic_0K_injection_guard (t : AceTable) (ev : Evaluation) :
    (convert_neutron_ace t ev).elastic_0K =
      if t.name ∈ ["U235", "U238", "Pu239"] then some ev.elastic0K_tag else none := by
  simp only [convert_neutron_ace, IncidentNeutron.from_ace, add_elastic_0K_from_endf]
  by_cases h458 : (1, 458) ∈ ev.sections <;>
    by_cases hname : t.name ∈ ["U235", "U238", "Pu239"] <;>
      simp [h458, hname]

/-- C7: the conversion worker merges fission-energy-release data from the
companion raw ENDF evaluation if and only if that evaluation contains section
(MF=1, MT=458); when the section is absent the record's `fission_energy` is
the one built from the ACE table. -/
theorem fission_energy_merge_guard (t : AceTable) (ev : Evaluation) :
    (convert_neutron_ace t ev).fission_energy =
      if (1, 458) ∈ ev.sections then ev.fer_endf else t.fer_ace := by
  simp only [convert_neutron_ace, IncidentNeutron.from_ace, add_elastic_0K_from_endf]
  by_cases h458 : (1, 458) ∈ ev.sections <;>
    by_cases hname : t.name ∈ ["U235", "U238", "Pu239"] <;>
      simp [h458, hname]

/-- C2: every invocation of `generate_jeff33.py`, whatever the command-line
flags and whatever conversion tasks would follow, reads `args.release` while
constructing `endf_files_dir` (line 54); the parser defines no such
attribute, so the run stops with an `AttributeError` and an empty event
trace — no download, extraction or conversion takes place. -/
theorem generate_jeff33_always_attribute_error (a : ArgFlags)
    (tasks : List (Except String String)) :
    run_generate_jeff33 a tasks = ([], Except.error "AttributeError: release") := rfl

/-- C3 counterexample: in `release_details['33']['neutron']['sab_files']`,
the principal neutron evaluation `1-H-1g.jeff33` is paired with nine
thermal-scattering companion files, not four. -/
theorem h1_companions_not_four :
    (companions "jeff-33-endf" "1-H-1g.jeff33").length = 9 ∧
      ¬ (companions "jeff-33-endf" "1-H-1g.jeff33").length = 4 := by decide

/-- C3 (amended): in script 1's configuration the principal neutron
evaluation file for hydrogen-1 is associated with exactly *nine*
thermal-scattering companion files, so converting hydrogen-1 with its
configured companions produces one neutron output file and nine thermal
output files, and the manifest registers all ten. -/
theorem h1_scenario_nine_companions (nd : String) :
    (companions nd "1-H-1g.jeff33").length = 9 ∧
    (convert_with_companions nd "1-H-1g.jeff33").1.length = 1 ∧
    (convert_with_companions nd "1-H-1g.jeff33").2.length = 9 ∧
    (scenario_manifest nd "1-H-1g.jeff33").entries.length = 10 := by
  have hcomp : (companions nd "1-H-1g.jeff33").length = 9 := by
    simp [companions, sab_files, Prod.ext_iff]
  refine ⟨hcomp, rfl, ?_, ?_⟩
  · simpa [convert_with_companions] using hcomp
  · rw [scenario_manifest, register_all_entries]
    simp [convert_with_companions, hcomp]

/-- C4 counterexample: for an archive path whose extension is neither the
gzip-tar suffix `.gz` nor the zip suffix `.zip`, the extraction loop of
`make_test_data.py` performs no extraction and raises no error at all
(`Except.ok none`): the archive is silently skipped, not rejected with an
`ExtractionError`. -/
theorem extract_step_rar_silently_skipped :
    extract_step "archive.rar" = Except.ok none := rfl

/-- C4 (amended): for every archive path whose extension is neither `.gz`
nor `.zip`, the extraction step silently skips the archive — the
`if`/`elif` chain has no `else` branch, so no extraction happens and no
error is raised. -/
theorem extract_step_skips_unsupported (f : String)
    (h1 : py_suffix f ≠ ".gz") (h2 : py_suffix f ≠ ".zip") :
    extract_step f = Except.ok none := by
  simp [extract_step, h1, h2]

/-- C4 witness: the amended statement at the concrete archive
`data.tar.bz2`. -/
theorem extract_step_skips_unsupported_witness :
    extract_step "data.tar.bz2" = Except.ok none :=
  extract_step_skips_unsupported "data.tar.bz2" (by decide) (by decide)

/-- C8: the photon phase iterates over every atomic number from 1 to 100
inclusive; each iteration consumes exactly the two raw evaluation inputs
(one photoatomic file and one atomic-relaxation file) for that element and
produces exactly one output file, which is registered in the manifest. -/
theorem photon_conversion_coverage (symbol : Nat → String) (outdir : String) :
    (photon_jobs symbol outdir).map PhotonJob.z = List.range' 1 100 ∧
    (∀ z : Nat, z ∈ (photon_jobs symbol outdir).map PhotonJob.z ↔ 1 ≤ z ∧ z ≤ 100) ∧
    (photon_jobs symbol outdir).map PhotonJob.inputs =
      (List.range' 1 100).map (fun z => [photoat_file z (symbol z), atom_file z (symbol z)]) ∧
    (photon_jobs symbol outdir).map (fun j => j.inputs.length) = List.replicate 100 2 ∧
    photon_registered symbol outdir =
      (List.range' 1 100).map (fun z => photon_output outdir (symbol z)) ∧
    (photon_jobs symbol outdir).length = 100 := by
  have hz : (photon_jobs symbol outdir).map PhotonJob.z = List.range' 1 100 := by
    simp [photon_jobs, List.map_map, Function.comp_def]
  refine ⟨hz, ?_, ?_, ?_, ?_, ?_⟩
  · intro z
    rw [hz, List.mem_range'_1]
    omega
  · simp [photon_jobs, List.map_map, Function.comp_def]
  · simp [photon_jobs, List.map_map, Function.comp_def, List.map_const', List.length_range']
  · simp [photon_registered, photon_jobs, List.map_map, Function.comp_def]
  · simp [photon_jobs]

/-- C9: the exported manifest does not depend on the order in which the
converted output files were registered — two runs registering the same set
of paths in any order export the same (path-sorted) sequence of entries. -/
theorem manifest_order_independent (ps qs : List String) (h : ps.Perm qs) :
    (register_all ps).export_entries = (register_all qs).export_entries := by
  haveI hA : IsAntisymm String (fun a b => a ≤ b) := ⟨fun a b h1 h2 => le_antisymm h1 h2⟩
  haveI hT : IsTotal String (fun a b => a ≤ b) := ⟨le_total⟩
  haveI hR : IsTrans String (fun a b => a ≤ b) := ⟨fun a b c h1 h2 => le_trans h1 h2⟩
  unfold DataLibrary.export_entries
  rw [register_all_entries, register_all_entries]
  refine List.eq_of_perm_of_sorted ?_
    (List.sorted_insertionSort _ ps) (List.sorted_insertionSort _ qs)
  exact (List.perm_insertionSort _ ps).trans (h.trans (List.perm_insertionSort _ qs).symm)

/-- C9 witness: registering `b.h5, a.h5` and `a.h5, b.h5` exports the same
manifest. -/
theorem manifest_order_independent_witness :
    (register_all ["b.h5", "a.h5"]).export_entries =
      (register_all ["a.h5", "b.h5"]).export_entries :=
  manifest_order_independent ["b.h5", "a.h5"] ["a.h5", "b.h5"] (List.Perm.swap _ _ _)

/-- C1 counterexample: with a single conversion task that raised an
exception, the join loop (`r.wait()`) still returns, and the run proceeds
to manifest export with an `ok` outcome — the task's failure does not
propagate to the join point; it is silently swallowed. -/
theorem conversion_failure_swallowed :
    conversion_outcome [Except.error "ValueError"] =
      Except.ok [Event.task_finished 0, Event.exported] := rfl

/-- C1 (amended): the conversion phase is a synchronization barrier —
in the event trace every `task_finished` event precedes every manifest
registration and the export — but a failure (raised exception) in an
individual conversion task does *not* propagate to the join point:
`AsyncResult.wait()` returns without re-raising, so the orchestrator always
reaches export with an `ok` outcome. -/
theorem conversion_barrier_failure_swallowed (tasks : List (Except String String)) :
    (∀ i, i < tasks.length →
      (conversion_phase tasks).indexOf (Event.task_finished i) <
        (conversion_phase tasks).indexOf Event.exported ∧
      ∀ p : String,
        (conversion_phase tasks).indexOf (Event.task_finished i) <
          (conversion_phase tasks).indexOf (Event.registered p)) ∧
    conversion_outcome tasks = Except.ok (conversion_phase tasks) := by
  refine ⟨?_, rfl⟩
  intro i hi
  have hmem : Event.task_finished i ∈ join_all tasks := by
    simp only [join_all, List.mem_map, List.mem_range]
    exact ⟨i, hi, rfl⟩
  have hlt : (join_all tasks).indexOf (Event.task_finished i) < (join_all tasks).length :=
    List.indexOf_lt_length.mpr hmem
  have hshape : conversion_phase tasks =
      join_all tasks ++
        (((produced_outputs tasks).insertionSort (fun a b => a ≤ b)).map Event.registered
          ++ [Event.exported]) := by
    simp [conversion_phase]
  constructor
  · rw [hshape, List.indexOf_append_of_mem hmem,
      List.indexOf_append_of_not_mem (by simp [join_all])]
    exact Nat.lt_of_lt_of_le hlt (Nat.le_add_right _ _)
  · intro p
    rw [hshape, List.indexOf_append_of_mem hmem,
      List.indexOf_append_of_not_mem (by simp [join_all])]
    exact Nat.lt_of_lt_of_le hlt (Nat.le_add_right _ _)

/-- C1 witness: the amended statement at a one-task run that succeeded. -/
theorem conversion_barrier_failure_swallowed_witness :
    ((conversion_phase [Except.ok "H1.h5"]).indexOf (Event.task_finished 0) <
      (conversion_phase [Except.ok "H1.h5"]).indexOf Event.exported ∧
     ∀ p : String,
       (conversion_phase [Except.ok "H1.h5"]).indexOf (Event.task_finished 0) <
         (conversion_phase [Except.ok "H1.h5"]).indexOf (Event.registered p)) ∧
    conversion_outcome [Except.ok "H1.h5"] =
      Except.ok (conversion_phase [Except.ok "H1.h5"]) :=
  ⟨(conversion_barrier_failure_swallowed [Except.ok "H1.h5"]).1 0 (by decide),
   (conversion_barrier_failure_swallowed [Except.ok "H1.h5"]).2⟩

